import Mathlib

/-
Verification of the Spotify playback integration layer of the study-app
repository: a shallow embedding of src/services/spotifyAuth.ts,
src/services/spotifyAPI.ts and src/services/spotifyPlayer.ts, with theorems
settling the behavioural claims about token lifecycle, the playback engine
state machine and the catalog client.
-/

namespace StudyApp

/-! ## Javascript primitives used by the source -/

/-- Truthiness of a nullable javascript string: null/undefined and the empty
string are falsy, every other string is truthy. -/
def truthy : Option String → Bool
  | none => false
  | some s => s ≠ ""

/-- Coercion of a possibly-undefined javascript string to a string, as
performed by localStorage.setItem (undefined is stored as "undefined"). -/
def jsString : Option String → String
  | some r => r
  | none => "undefined"

/-- Numeric value of a list of decimal digit characters, most significant
first. -/
def digitsToNat (ds : List Char) : Nat :=
  ds.foldl (fun a c => a * 10 + (c.toNat - 48)) 0

/-- Leading decimal digits of a character list; none when the first character
is not a digit, which is the case where javascript parseInt yields NaN. -/
def leadDigits (cs : List Char) : Option Nat :=
  let ds := cs.takeWhile Char.isDigit
  if ds.isEmpty then none else some (digitsToNat ds)

/-- Model of javascript parseInt on base-10 inputs: skip leading whitespace,
an optional sign, then read leading digits; none models NaN. The hexadecimal
0x prefix form is not modelled because the source only ever stores decimal
timestamp strings. -/
def parseIntJS (s : String) : Option Int :=
  match s.data.dropWhile Char.isWhitespace with
  | '-' :: rest => (leadDigits rest).map (fun n => -(n : Int))
  | '+' :: rest => (leadDigits rest).map (fun n => (n : Int))
  | l           => (leadDigits l).map (fun n => (n : Int))

/-! ## SpotifyAuth (src/services/spotifyAuth.ts)

localStorage restricted to the four keys the module touches:
spotify_access_token, spotify_refresh_token, spotify_token_expiry,
spotify_code_verifier. A fetch of the token endpoint is modelled by its
outcome: some response data, or none for a network error or a non-2xx
response (both of which the source funnels into its catch branch). -/

/-- The four persisted fields of the auth module; none models an absent key. -/
structure Storage where
  accessToken : Option String
  refreshToken : Option String
  tokenExpiry : Option String
  codeVerifier : Option String
deriving DecidableEq, Repr

/-- Storage with no keys set. -/
def emptyStorage : Storage :=
  { accessToken := none, refreshToken := none, tokenExpiry := none, codeVerifier := none }

/-- Parsed JSON body of a successful token-endpoint response:
access_token, optional refresh_token, expires_in. -/
structure TokenResp where
  access_token : String
  refresh_token : Option String
  expires_in : Int
deriving DecidableEq, Repr

/-- SpotifyAuth.storeTokens: expiry = Date.now() + expiresIn * 1000, then the
three fields are written. -/
def storeTokens (now : Int) (accessToken refreshToken : String) (expiresIn : Int)
    (s : Storage) : Storage :=
  { s with
    accessToken := some accessToken
    refreshToken := some refreshToken
    tokenExpiry := some (toString (now + expiresIn * 1000)) }

/-- SpotifyAuth.logout: removes all four keys. -/
def logout (_s : Storage) : Storage := emptyStorage

/-- SpotifyAuth.getAccessToken: null when token or expiry is missing or falsy;
null when Date.now() >= parseInt(expiry); otherwise the stored token. A NaN
expiry makes the comparison false, so the token is returned. -/
def getAccessToken (now : Int) (s : Storage) : Option String :=
  match s.accessToken, s.tokenExpiry with
  | some token, some expiry =>
    if token = "" ∨ expiry = "" then none
    else
      match parseIntJS expiry with
      | some e => if now ≥ e then none else some token
      | none => some token
  | _, _ => none

/-- SpotifyAuth.refreshAccessToken: null when no refresh token is stored (the
storage is left untouched); on a successful exchange stores the new tokens,
keeping the old refresh token when the provider returns none; on a failed
exchange calls logout and returns null. Returns the result and the updated
storage. -/
def refreshAccessToken (now : Int) (net : Option TokenResp) (s : Storage) :
    Option String × Storage :=
  match s.refreshToken with
  | none => (none, s)
  | some rt =>
    if rt = "" then (none, s)
    else
      match net with
      | some data =>
        let newRefresh :=
          match data.refresh_token with
          | some r => if r = "" then rt else r
          | none => rt
        (some data.access_token,
         storeTokens now data.access_token newRefresh data.expires_in s)
      | none => (none, logout s)

/-- SpotifyAuth.getValidAccessToken: the cached token when getAccessToken
yields one, otherwise the outcome of one refreshAccessToken call. -/
def getValidAccessToken (now : Int) (net : Option TokenResp) (s : Storage) :
    Option String × Storage :=
  match getAccessToken now s with
  | some t => (some t, s)
  | none => refreshAccessToken now net s

/-- SpotifyAuth.handleCallback: reads code and error from the callback URL.
Returns false when an error parameter is present, when no code is present, or
when no transient verifier is stored. Otherwise exchanges the code; on a
successful exchange stores the tokens and removes the verifier; on a failed
exchange (network error or non-2xx, the catch branch) returns false leaving
storage untouched. Returns the result and the updated storage. -/
def handleCallback (code err : Option String) (net : Option TokenResp) (now : Int)
    (s : Storage) : Bool × Storage :=
  if truthy err then (false, s)
  else if ¬ truthy code then (false, s)
  else
    match s.codeVerifier with
    | none => (false, s)
    | some v =>
      if v = "" then (false, s)
      else
        match net with
        | some data =>
          let s1 := storeTokens now data.access_token (jsString data.refresh_token)
            data.expires_in s
          (true, { s1 with codeVerifier := none })
        | none => (false, s)

/-! ## Claim statements over the auth model -/

/-- Claim C3 as stated: after handleCallback resolves, for every initial
storage and callback URL, the verifier is absent. -/
def claimC3Stmt : Prop :=
  ∀ (code err : Option String) (net : Option TokenResp) (now : Int) (s : Storage),
    ((handleCallback code err net now s).2).codeVerifier = none

/-- Claim C4 as stated: whenever refreshAccessToken fails, all three persisted
token fields are absent afterwards. -/
def claimC4Stmt : Prop :=
  ∀ (now : Int) (net : Option TokenResp) (s : Storage),
    (refreshAccessToken now net s).1 = none →
      (refreshAccessToken now net s).2.accessToken = none ∧
      (refreshAccessToken now net s).2.refreshToken = none ∧
      (refreshAccessToken now net s).2.tokenExpiry = none

/-! ## SpotifyPlayer (src/services/spotifyPlayer.ts)

Mutable instance state: player (null or an SDK player object), deviceId,
useRemote, pollInterval (null or a running interval), stateCallbacks. The
connect race inside SpotifyPlayer.initialize is resolved by whichever of the
ready event, an initialization/authentication error event, connect()
resolving false, or the 5s timeout wins; that winner is the ConnectOutcome
parameter. The handshakes field is a ghost counter recording how many times
the construct-player / register-listeners / connect handshake ran. -/

/-- Winner of the connect race inside SpotifyPlayer.initialize. -/
inductive ConnectOutcome
  | ready (deviceId : String)
  | errorEvent
  | connectFalse
  | timeout
deriving DecidableEq, Repr

/-- Instance state of a SpotifyPlayer: playerActive models player being
non-null, pollActive models pollInterval being non-null, subs models the
stateCallbacks set (as subscriber identifiers), handshakes is a ghost count
of performed connection handshakes. -/
structure PlayerSt where
  playerActive : Bool
  deviceId : Option String
  useRemote : Bool
  pollActive : Bool
  subs : List Nat
  handshakes : Nat
deriving DecidableEq, Repr

/-- A freshly constructed SpotifyPlayer. -/
def freshPlayer : PlayerSt :=
  { playerActive := false, deviceId := none, useRemote := false
    pollActive := false, subs := [], handshakes := 0 }

/-- SpotifyPlayer.startRemotePolling: clears any existing interval and starts
a new one, so afterwards a poll interval is running. -/
def startRemotePolling (st : PlayerSt) : PlayerSt :=
  { st with pollActive := true }

/-- SpotifyPlayer.initialize: returns true at once when player is already
non-null; returns false when no valid token is available; otherwise performs
the handshake (constructs the player, registers listeners, connects) and
resolves by the winner of the connect race. On the ready event the device id
is recorded and the player kept. On an error event or on connect() resolving
false the player is disconnected and nulled, useRemote is set, and polling
starts. On timeout useRemote is set and polling starts but the player object
is kept. Every one of these three fallback branches resolves true. -/
def initializePlayer (tokenOk : Bool) (out : ConnectOutcome) (st : PlayerSt) :
    Bool × PlayerSt :=
  if st.playerActive then (true, st)
  else if ¬ tokenOk then (false, st)
  else
    let st1 := { st with playerActive := true, handshakes := st.handshakes + 1 }
    match out with
    | .ready d => (true, { st1 with deviceId := some d })
    | .errorEvent =>
      (true, startRemotePolling { st1 with playerActive := false, useRemote := true })
    | .connectFalse =>
      (true, startRemotePolling { st1 with playerActive := false, useRemote := true })
    | .timeout => (true, startRemotePolling { st1 with useRemote := true })

/-- SpotifyPlayer.disconnect: only when player is non-null, disconnects it and
nulls player and deviceId. Neither pollInterval nor the callback set is
touched. -/
def disconnect (st : PlayerSt) : PlayerSt :=
  if st.playerActive then { st with playerActive := false, deviceId := none } else st

/-- SpotifyPlayer.onStateChange: adds a callback to the stateCallbacks set. -/
def subscribe (id : Nat) (st : PlayerSt) : PlayerSt :=
  { st with subs := st.subs ++ [id] }

/-- One firing of the remote polling interval: the tick runs precisely when a
poll interval is active, and pollRemoteState then notifies every registered
callback unconditionally. Result: the callbacks invoked by the tick. -/
def pollTick (st : PlayerSt) : List Nat :=
  if st.pollActive then st.subs else []

/-- Late arrival of an in-flight poll response: pollRemoteState notifies the
current callbacks with no still-connected gate, whatever the state. Result:
the callbacks invoked by the delivery. -/
def deliverInFlight (st : PlayerSt) : List Nat :=
  st.subs

/-- Events the SDK can emit to the persistent listeners registered by
SpotifyPlayer.setupEventListeners. -/
inductive PEvent
  | ready (deviceId : String)
  | notReady
  | stateChanged
  | initError
  | authError
  | accountError
  | playbackError
deriving DecidableEq, Repr

/-- Effect of an SDK event on the engine state: listeners exist only while
player is non-null; ready records the device id, notReady clears it, and no
event writes useRemote or pollInterval. -/
def applyEvent (st : PlayerSt) (e : PEvent) : PlayerSt :=
  if ¬ st.playerActive then st
  else
    match e with
    | .ready d => { st with deviceId := some d }
    | .notReady => { st with deviceId := none }
    | _ => st

/-- Anything that can happen to the engine after a session is under way: an
SDK event, another initialize call, or a disconnect call. -/
inductive Act
  | ev (e : PEvent)
  | attach (tokenOk : Bool) (out : ConnectOutcome)
  | disc
deriving DecidableEq, Repr

/-- State transition for one Act. -/
def stepAct (st : PlayerSt) (a : Act) : PlayerSt :=
  match a with
  | .ev e => applyEvent st e
  | .attach tok out => (initializePlayer tok out st).2
  | .disc => disconnect st

/-- Dispatch target of a transport method or state query. -/
inductive Route
  | remote
  | localSDK
  | noop
deriving DecidableEq, Repr

/-- SpotifyPlayer.pause: remote HTTP when useRemote, else the local SDK when
player is non-null, else a silent return. -/
def pauseRoute (st : PlayerSt) : Route :=
  if st.useRemote then .remote else if st.playerActive then .localSDK else .noop

/-- SpotifyPlayer.resume, same dispatch shape as pause. -/
def resumeRoute (st : PlayerSt) : Route :=
  if st.useRemote then .remote else if st.playerActive then .localSDK else .noop

/-- SpotifyPlayer.togglePlay, same dispatch shape. -/
def togglePlayRoute (st : PlayerSt) : Route :=
  if st.useRemote then .remote else if st.playerActive then .localSDK else .noop

/-- SpotifyPlayer.nextTrack, same dispatch shape. -/
def nextRoute (st : PlayerSt) : Route :=
  if st.useRemote then .remote else if st.playerActive then .localSDK else .noop

/-- SpotifyPlayer.previousTrack, same dispatch shape. -/
def prevRoute (st : PlayerSt) : Route :=
  if st.useRemote then .remote else if st.playerActive then .localSDK else .noop

/-- SpotifyPlayer.seek, same dispatch shape. -/
def seekRoute (st : PlayerSt) : Route :=
  if st.useRemote then .remote else if st.playerActive then .localSDK else .noop

/-- SpotifyPlayer.setVolume, same dispatch shape. -/
def volumeRoute (st : PlayerSt) : Route :=
  if st.useRemote then .remote else if st.playerActive then .localSDK else .noop

/-- SpotifyPlayer.getCurrentState: fetchRemoteState when useRemote, else null
when player is null, else the local SDK state. -/
def getCurrentStateRoute (st : PlayerSt) : Route :=
  if st.useRemote then .remote else if st.playerActive then .localSDK else .noop

/-- SpotifyPlayer.play URL selection: throws (none) when deviceId is null and
useRemote is false; otherwise the bare play endpoint in remote mode, or the
device-addressed endpoint in local mode. -/
def playUrl (st : PlayerSt) : Option String :=
  if st.deviceId = none ∧ ¬ st.useRemote then none
  else some (if st.useRemote then "https://api.spotify.com/v1/me/player/play"
    else "https://api.spotify.com/v1/me/player/play?device_id=" ++ jsString st.deviceId)

/-! ### Substring classification inside SpotifyPlayer.play -/

/-- Whether the first list is a prefix of the second. -/
def isPrefixL : List Char → List Char → Bool
  | [], _ => true
  | _ :: _, [] => false
  | a :: as, b :: bs => a == b && isPrefixL as bs

/-- Whether sub occurs as a contiguous sublist. -/
def containsSubL (sub : List Char) : List Char → Bool
  | [] => isPrefixL sub []
  | c :: rest => isPrefixL sub (c :: rest) || containsSubL sub rest

/-- Model of javascript String.prototype.includes. -/
def includesJS (s sub : String) : Bool :=
  containsSubL sub.data s.data

/-- Request body built by SpotifyPlayer.play. -/
inductive PlayBody
  | emptyBody
  | contextUri (uri : String)
  | uris (uri : String)
deriving DecidableEq, Repr

/-- SpotifyPlayer.play body: empty without a URI; context_uri when the URI
contains the substring playlist or album (javascript includes), else a
one-element uris array. -/
def playBody : Option String → PlayBody
  | none => .emptyBody
  | some uri =>
    if includesJS uri "playlist" || includesJS uri "album" then .contextUri uri
    else .uris uri

/-- Split of a character list at colon characters. -/
def splitOnColon : List Char → List (List Char)
  | [] => [[]]
  | c :: rest =>
    if c = ':' then [] :: splitOnColon rest
    else
      match splitOnColon rest with
      | [] => [[c]]
      | h :: t => (c :: h) :: t

/-- Modelled from the spec: the resource-type segment of a Spotify URI, the
segment after the first colon (spotify:TYPE:id). The source has no such
parser; this definition follows the spec wording for the refinement
comparison in claim C8. -/
def specResourceType (uri : String) : String :=
  match splitOnColon uri.data with
  | _ :: t :: _ => ⟨t⟩
  | _ => ""

/-! ### Remote-mode control effects -/

/-- Observable effect of a remote control method: an HTTP request, or a
re-poll of playback state scheduled after the given delay (which on firing
runs pollRemoteState and so delivers the fetched state to subscribers). -/
inductive Eff
  | httpCall (desc : String)
  | repollAfter (ms : Nat)
deriving DecidableEq, Repr

/-- SpotifyPlayer.remoteControl: nothing without a token; otherwise the HTTP
call followed by setTimeout of pollRemoteState after 200ms. -/
def remoteControl (tokenOk : Bool) (method endpoint : String) : List Eff :=
  if tokenOk then [.httpCall (method ++ " " ++ endpoint), .repollAfter 200] else []

/-- Remote-mode pause: remoteControl PUT pause. -/
def pauseRemoteEff (tokenOk : Bool) : List Eff :=
  remoteControl tokenOk "PUT" "pause"

/-- Remote-mode resume: remoteControl PUT play. -/
def resumeRemoteEff (tokenOk : Bool) : List Eff :=
  remoteControl tokenOk "PUT" "play"

/-- Remote-mode nextTrack: remoteControl POST next. -/
def nextRemoteEff (tokenOk : Bool) : List Eff :=
  remoteControl tokenOk "POST" "next"

/-- Remote-mode previousTrack: remoteControl POST previous. -/
def previousRemoteEff (tokenOk : Bool) : List Eff :=
  remoteControl tokenOk "POST" "previous"

/-- Remote-mode seek: its own fetch of the seek endpoint, nothing more
(silent return without a token; no scheduled re-poll). -/
def seekRemoteEff (tokenOk : Bool) (positionMs : Nat) : List Eff :=
  if tokenOk then [.httpCall ("PUT seek?position_ms=" ++ toString positionMs)] else []

/-- Remote-mode setVolume: its own fetch of the volume endpoint with the
0-100 percent value, nothing more (no scheduled re-poll). -/
def setVolumeRemoteEff (tokenOk : Bool) (volumePercent : Nat) : List Eff :=
  if tokenOk then [.httpCall ("PUT volume?volume_percent=" ++ toString volumePercent)] else []

/-- Remote-mode play: throws without a token; otherwise one PUT of the play
endpoint with the body from playBody (no scheduled re-poll). -/
def playRemoteEff (tokenOk : Bool) (_uri : Option String) : List Eff :=
  if tokenOk then [.httpCall "PUT me/player/play"] else []

/-! ## SpotifyAPI (src/services/spotifyAPI.ts)

SpotifyAPI.fetch is modelled against an interaction trace: one Attempt per
execution of the method body, recording whether getValidAccessToken produced
a token, the HTTP status the endpoint answered, and whether the
refreshAccessToken call performed on a 401 succeeded. -/

/-- One attempt of the SpotifyAPI.fetch body. -/
structure Attempt where
  tokenOk : Bool
  status : Nat
  refreshOk : Bool
deriving DecidableEq, Repr

/-- Result of a SpotifyAPI.fetch call. -/
inductive ApiOutcome
  | ok
  | errTok
  | errStatus (status : Nat)
  | outOfTrace
deriving DecidableEq, Repr

/-- SpotifyAPI.fetch: throws when no valid token; returns the body on a 2xx
status; on a 401 refreshes and, when the refresh yields a token, returns the
result of re-running the whole method on the remaining trace; any other
failure, and a 401 whose refresh fails, throws the status. -/
def apiFetch : List Attempt → ApiOutcome
  | [] => .outOfTrace
  | a :: rest =>
    if a.tokenOk = false then .errTok
    else if 200 ≤ a.status ∧ a.status ≤ 299 then .ok
    else if a.status = 401 ∧ a.refreshOk = true then apiFetch rest
    else .errStatus a.status

/-! ## Claim statements over the player and API models -/

/-- Claim C2 as stated: a second 401 after the one refresh-and-retry is a
hard failure surfaced to the caller, with no further refresh or retry. -/
def claimC2Stmt : Prop :=
  ∀ (a b : Attempt) (rest : List Attempt),
    a.tokenOk = true → a.status = 401 → a.refreshOk = true → b.status = 401 →
      apiFetch (a :: b :: rest) = .errStatus 401

/-- Claim C5 as stated: from a fresh engine with a valid token, two
initialize calls in a row return true both times and perform the handshake
only on the first call, for every outcome of the first call. -/
def claimC5Stmt : Prop :=
  ∀ (out1 out2 : ConnectOutcome),
    (initializePlayer true out1 freshPlayer).1 = true ∧
    (initializePlayer true out2 (initializePlayer true out1 freshPlayer).2).1 = true ∧
    ((initializePlayer true out2 (initializePlayer true out1 freshPlayer).2).2).handshakes = 1

/-- Claim C8 as stated: play classifies its URI by the resource-type segment,
playlist and album as a context reference and everything else as a
one-element queue. -/
def claimC8Stmt : Prop :=
  ∀ uri : String,
    playBody (some uri) =
      (if specResourceType uri = "playlist" ∨ specResourceType uri = "album"
       then PlayBody.contextUri uri else PlayBody.uris uri)

/-- Claim C9 as stated: every remote-mode control action, play, pause,
resume, next, previous, seek and setVolume alike, schedules the 200ms
proactive re-poll. -/
def claimC9Stmt : Prop :=
  ∀ (uri : Option String) (pos vol : Nat),
    Eff.repollAfter 200 ∈ playRemoteEff true uri ∧
    Eff.repollAfter 200 ∈ pauseRemoteEff true ∧
    Eff.repollAfter 200 ∈ resumeRemoteEff true ∧
    Eff.repollAfter 200 ∈ nextRemoteEff true ∧
    Eff.repollAfter 200 ∈ previousRemoteEff true ∧
    Eff.repollAfter 200 ∈ seekRemoteEff true pos ∧
    Eff.repollAfter 200 ∈ setVolumeRemoteEff true vol

/-- A remote-fallback state reached by the connect timeout, with one
subscriber: the failing input for claim C1. -/
def fallbackByTimeout : PlayerSt :=
  subscribe 0 (initializePlayer true ConnectOutcome.timeout freshPlayer).2

/-- A remote-fallback state reached by an error event, with one subscriber. -/
def fallbackByError : PlayerSt :=
  subscribe 0 (initializePlayer true ConnectOutcome.errorEvent freshPlayer).2

/-- A storage state with all four auth keys present. -/
def storedSession : Storage :=
  { accessToken := some "at", refreshToken := some "rt", tokenExpiry := some "9"
    codeVerifier := some "v" }

/-! ## Helper lemmas -/

theorem stepAct_useRemote (st : PlayerSt) (a : Act) (h : st.useRemote = true) :
    (stepAct st a).useRemote = true := by
  cases a with
  | ev e =>
    simp only [stepAct]
    unfold applyEvent
    split
    · exact h
    · cases e <;> simp [h]
  | attach tok out =>
    simp only [stepAct]
    unfold initializePlayer
    split
    · exact h
    · split
      · exact h
      · cases out <;> simp [startRemotePolling, h]
  | disc =>
    simp only [stepAct]
    unfold disconnect
    split <;> simp [h]

theorem foldl_stepAct_useRemote (acts : List Act) : ∀ st : PlayerSt,
    st.useRemote = true → (acts.foldl stepAct st).useRemote = true := by
  induction acts with
  | nil => intro st h; simpa using h
  | cons a rest ih => intro st h; exact ih _ (stepAct_useRemote st a h)

theorem isPrefixL_append (sub post : List Char) : isPrefixL sub (sub ++ post) = true := by
  induction sub with
  | nil => rfl
  | cons a as ih => simp [isPrefixL, ih]

theorem containsSubL_append (sub pre post : List Char) :
    containsSubL sub (pre ++ (sub ++ post)) = true := by
  induction pre with
  | nil =>
    cases sub with
    | nil => cases post <;> simp [containsSubL, isPrefixL]
    | cons c cs =>
      have hp := isPrefixL_append (c :: cs) post
      rw [List.cons_append] at hp
      simp [containsSubL, hp]
  | cons p ps ih => simp [containsSubL, ih]

theorem string_data_append (a b : String) : (a ++ b).data = a.data ++ b.data := by
  rcases a with ⟨la⟩
  rcases b with ⟨lb⟩
  rfl

theorem includesJS_append (pre mid post : String) :
    includesJS (pre ++ mid ++ post) mid = true := by
  unfold includesJS
  rw [string_data_append, string_data_append, List.append_assoc]
  exact containsSubL_append mid.data pre.data post.data

/-! ## Claim C1 -/

/-- Claim C1: after disconnect() the polling interval is stopped and no
subscriber callback is invoked by a poll tick or a late in-flight result.
The code fails this: disconnect() never clears pollInterval, so on a
remote-fallback engine (reached via timeout or via error) the interval is
still active after disconnect(), the next tick still invokes the subscriber,
and a late in-flight poll result is still delivered. -/
theorem disconnect_leaves_polling_running :
    (disconnect fallbackByTimeout).pollActive = true ∧
    pollTick (disconnect fallbackByTimeout) = [0] ∧
    deliverInFlight (disconnect fallbackByTimeout) = [0] ∧
    (disconnect fallbackByError).pollActive = true ∧
    pollTick (disconnect fallbackByError) = [0] := by decide

/-! ## Claim C2 -/

/-- Counterexample to claim C2 as stated: with the trace 401, 401, 200 and
every refresh succeeding, SpotifyAPI.fetch resolves successfully after a
second refresh-and-retry instead of failing hard on the second 401. -/
theorem apiFetch_second401_not_hard_failure : ¬ claimC2Stmt := by
  intro h
  have h2 := h { tokenOk := true, status := 401, refreshOk := true }
    { tokenOk := true, status := 401, refreshOk := true }
    [{ tokenOk := true, status := 200, refreshOk := true }] rfl rfl rfl rfl
  exact absurd h2 (by decide)

/-- Claim C2 (amended): on a 401 the client refreshes and, whenever the
refresh succeeds, re-runs the whole request, repeating this for every further
401; the call fails hard only when the refresh itself fails (or on a non-401
error status). In particular any number of consecutive 401s with succeeding
refreshes is retried through to success. -/
theorem apiFetch_retries_while_refresh_succeeds :
    (∀ (a : Attempt) (rest : List Attempt), a.tokenOk = true → a.status = 401 →
      (a.refreshOk = true → apiFetch (a :: rest) = apiFetch rest) ∧
      (a.refreshOk = false → apiFetch (a :: rest) = ApiOutcome.errStatus 401)) ∧
    (∀ n : Nat,
      apiFetch (List.replicate n { tokenOk := true, status := 401, refreshOk := true } ++
        [{ tokenOk := true, status := 200, refreshOk := false }]) = ApiOutcome.ok) := by
  constructor
  · intro a rest htok hst
    constructor <;> intro hr <;> simp [apiFetch, htok, hst, hr]
  · intro n
    induction n with
    | zero => decide
    | succ k ih => simpa [apiFetch, List.replicate_succ] using ih

/-- Witness for the amended claim C2 at a concrete input: a single 401 whose
refresh fails is surfaced as the hard failure. -/
theorem apiFetch_retries_while_refresh_succeeds_witness :
    apiFetch [{ tokenOk := true, status := 401, refreshOk := false }] =
      ApiOutcome.errStatus 401 :=
  (apiFetch_retries_while_refresh_succeeds.1
    { tokenOk := true, status := 401, refreshOk := false } [] rfl rfl).2 rfl

/-! ## Claim C3 -/

/-- Counterexample to claim C3 as stated: a callback URL carrying a code, a
stored verifier, and a failing token exchange make handleCallback resolve
false with the verifier still present in storage. -/
theorem handleCallback_leaves_verifier_on_failure : ¬ claimC3Stmt := by
  intro h
  have h2 := h (some "authcode") none none 0
    { accessToken := none, refreshToken := none, tokenExpiry := none
      codeVerifier := some "ver" }
  exact absurd h2 (by decide)

/-- Claim C3 (amended): after handleCallback resolves true the transient
verifier is absent from storage; on every failure path (error parameter,
missing code, missing verifier, failed exchange) the storage is left
unchanged, so a previously stored verifier remains. -/
theorem handleCallback_verifier_semantics (code err : Option String)
    (net : Option TokenResp) (now : Int) (s : Storage) :
    ((handleCallback code err net now s).1 = true →
      ((handleCallback code err net now s).2).codeVerifier = none) ∧
    ((handleCallback code err net now s).1 = false →
      (handleCallback code err net now s).2 = s) := by
  unfold handleCallback
  (repeat' split) <;> simp

/-- Witness for the amended claim C3 at a concrete successful exchange. -/
theorem handleCallback_verifier_semantics_witness :
    ((handleCallback (some "authcode") none
      (some { access_token := "at2", refresh_token := some "rt2", expires_in := 3600 }) 0
      { accessToken := none, refreshToken := none, tokenExpiry := none
        codeVerifier := some "ver" }).2).codeVerifier = none :=
  (handleCallback_verifier_semantics (some "authcode") none
    (some { access_token := "at2", refresh_token := some "rt2", expires_in := 3600 }) 0
    { accessToken := none, refreshToken := none, tokenExpiry := none
      codeVerifier := some "ver" }).1 (by decide)

/-! ## Claim C4 -/

/-- Counterexample to claim C4 as stated: with an access token stored but no
refresh token, refreshAccessToken fails (returns none) without calling
logout, and the access token is still present afterwards. -/
theorem refresh_failure_not_always_logout : ¬ claimC4Stmt := by
  intro h
  have h2 := h 0 none
    { accessToken := some "at", refreshToken := none, tokenExpiry := some "99"
      codeVerifier := none } (by decide)
  exact absurd h2.1 (by decide)

/-- Claim C4 (amended): when a nonempty refresh token is stored and the
exchange fails, refreshAccessToken calls logout, so all persisted fields are
absent afterwards; but when no refresh token (or an empty one) is stored, it
returns absent leaving the storage untouched. -/
theorem refreshAccessToken_failure_semantics (now : Int) (net : Option TokenResp)
    (s : Storage) :
    (∀ rt : String, s.refreshToken = some rt → rt ≠ "" → net = none →
      refreshAccessToken now net s = (none, logout s) ∧
      (logout s).accessToken = none ∧ (logout s).refreshToken = none ∧
      (logout s).tokenExpiry = none) ∧
    (s.refreshToken = none → refreshAccessToken now net s = (none, s)) ∧
    (s.refreshToken = some "" → refreshAccessToken now net s = (none, s)) := by
  refine ⟨?_, ?_, ?_⟩
  · intro rt hrt hne hnet
    subst hnet
    unfold refreshAccessToken
    rw [hrt]
    simp [hne, logout, emptyStorage]
  · intro h
    unfold refreshAccessToken
    rw [h]
  · intro h
    unfold refreshAccessToken
    rw [h]
    simp

/-- Witness for the amended claim C4 at a concrete failing refresh. -/
theorem refreshAccessToken_failure_semantics_witness :
    refreshAccessToken 0 none storedSession = (none, logout storedSession) ∧
    (logout storedSession).accessToken = none :=
  ⟨((refreshAccessToken_failure_semantics 0 none storedSession).1 "rt" rfl
      (by decide) rfl).1,
   ((refreshAccessToken_failure_semantics 0 none storedSession).1 "rt" rfl
      (by decide) rfl).2.1⟩

/-! ## Claim C5 -/

/-- Counterexample to claim C5 as stated: when the first initialize call
falls back via an error event, the player object is discarded, so the second
call performs the connection handshake again (two handshakes in total). -/
theorem initialize_not_idempotent_after_error_fallback : ¬ claimC5Stmt := by
  intro h
  have h2 := h ConnectOutcome.errorEvent ConnectOutcome.timeout
  exact absurd h2.2.2 (by decide)

/-- Claim C5 (amended): with a valid token, two initialize calls in a row
return true both times; the handshake is performed only on the first call
when that call ends in local mode or in remote fallback via timeout (the
player object is kept), but it is repeated on the second call when the first
fell back via an error event or via connect() returning false (the player
object was discarded). -/
theorem initializePlayer_twice_semantics (out1 out2 : ConnectOutcome) :
    (initializePlayer true out1 freshPlayer).1 = true ∧
    (initializePlayer true out2 (initializePlayer true out1 freshPlayer).2).1 = true ∧
    ((out1 = ConnectOutcome.timeout ∨ ∃ d, out1 = ConnectOutcome.ready d) →
      ((initializePlayer true out2
        (initializePlayer true out1 freshPlayer).2).2).handshakes = 1) ∧
    ((out1 = ConnectOutcome.errorEvent ∨ out1 = ConnectOutcome.connectFalse) →
      ((initializePlayer true out2
        (initializePlayer true out1 freshPlayer).2).2).handshakes = 2) := by
  cases out1 <;> cases out2 <;>
    simp [initializePlayer, freshPlayer, startRemotePolling]

/-- Witness for the amended claim C5: error-event fallback followed by a
second call gives two handshakes. -/
theorem initializePlayer_twice_semantics_witness :
    ((initializePlayer true ConnectOutcome.timeout
      (initializePlayer true ConnectOutcome.errorEvent freshPlayer).2).2).handshakes = 2 :=
  (initializePlayer_twice_semantics ConnectOutcome.errorEvent
    ConnectOutcome.timeout).2.2.2 (Or.inl rfl)

/-! ## Claim C6 -/

/-- Claim C6: getValidAccessToken never returns a token whose stored expiry
is in the past: whenever the stored expiry parses to a timestamp at or before
now, the cached token is not returned and the result is the outcome of the
one refresh attempt. -/
theorem getValidAccessToken_never_returns_expired (now e : Int) (x : String)
    (net : Option TokenResp) (s : Storage)
    (hx : s.tokenExpiry = some x) (hp : parseIntJS x = some e) (he : e ≤ now) :
    getAccessToken now s = none ∧
    getValidAccessToken now net s = refreshAccessToken now net s := by
  have hxe : x ≠ "" := by
    intro hx0
    rw [hx0] at hp
    simp [parseIntJS, leadDigits] at hp
  have hga : getAccessToken now s = none := by
    unfold getAccessToken
    cases ha : s.accessToken with
    | none => simp
    | some t =>
      rw [hx]
      by_cases ht : t = ""
      · simp [ht]
      · simp [ht, hxe, hp, he]
  refine ⟨hga, ?_⟩
  unfold getValidAccessToken
  rw [hga]

/-- Witness for claim C6: a token saved with expiresInSeconds = 0 is not
returned on the very next call, which instead delegates to the refresh. -/
theorem getValidAccessToken_never_returns_expired_witness :
    getAccessToken 1000 (storeTokens 1000 "tok" "ref" 0 emptyStorage) = none ∧
    getValidAccessToken 1000 none (storeTokens 1000 "tok" "ref" 0 emptyStorage) =
      refreshAccessToken 1000 none (storeTokens 1000 "tok" "ref" 0 emptyStorage) :=
  getValidAccessToken_never_returns_expired 1000 1000 "1000" none
    (storeTokens 1000 "tok" "ref" 0 emptyStorage) (by decide) (by decide) (by decide)

/-! ## Claim C7 -/

/-- Claim C7: once the engine is in remote-fallback mode, no later SDK event
(in particular a late ready event carrying a device id), no further
initialize call and no disconnect switches it back to local mode: after any
such sequence every transport method and the state query still dispatch over
the remote HTTP path, and play still targets the bare remote play endpoint. -/
theorem remote_fallback_is_sticky (st : PlayerSt) (h : st.useRemote = true)
    (acts : List Act) :
    (acts.foldl stepAct st).useRemote = true ∧
    pauseRoute (acts.foldl stepAct st) = Route.remote ∧
    resumeRoute (acts.foldl stepAct st) = Route.remote ∧
    togglePlayRoute (acts.foldl stepAct st) = Route.remote ∧
    nextRoute (acts.foldl stepAct st) = Route.remote ∧
    prevRoute (acts.foldl stepAct st) = Route.remote ∧
    seekRoute (acts.foldl stepAct st) = Route.remote ∧
    volumeRoute (acts.foldl stepAct st) = Route.remote ∧
    getCurrentStateRoute (acts.foldl stepAct st) = Route.remote ∧
    playUrl (acts.foldl stepAct st) = some "https://api.spotify.com/v1/me/player/play" := by
  have hu := foldl_stepAct_useRemote acts st h
  refine ⟨hu, ?_, ?_, ?_, ?_, ?_, ?_, ?_, ?_, ?_⟩ <;>
    simp [pauseRoute, resumeRoute, togglePlayRoute, nextRoute, prevRoute, seekRoute,
      volumeRoute, getCurrentStateRoute, playUrl, hu]

/-- Witness for claim C7: after timeout fallback, a late ready event followed
by a disconnect still leaves the state query dispatching remotely. -/
theorem remote_fallback_is_sticky_witness :
    fallbackByTimeout.useRemote = true ∧
    getCurrentStateRoute ([Act.ev (PEvent.ready "dev"), Act.disc].foldl stepAct
      fallbackByTimeout) = Route.remote :=
  ⟨by decide,
   (remote_fallback_is_sticky fallbackByTimeout (by decide)
     [Act.ev (PEvent.ready "dev"), Act.disc]).2.2.2.2.2.2.2.2.1⟩

/-! ## Claim C8 -/

/-- Counterexample to claim C8 as stated: the URI spotify:track:xalbumx has
resource-type segment track, so the claim requires a one-element uris body,
but the source classifies by substring containment and the id contains
album, so a context_uri body is sent. -/
theorem playBody_not_by_resource_segment : ¬ claimC8Stmt := by
  intro h
  have h2 := h "spotify:track:xalbumx"
  exact absurd h2 (by decide)

/-- Claim C8 (amended): play classifies its URI by substring containment, not
by the resource-type segment: every URI containing playlist or album anywhere
is sent as context_uri (in particular every URI whose segment is playlist or
album), and a URI containing neither substring is sent as a one-element uris
array; the two concrete scenarios of the claim hold. -/
theorem playBody_substring_classification :
    playBody (some "spotify:playlist:abc") = PlayBody.contextUri "spotify:playlist:abc" ∧
    playBody (some "spotify:track:xyz") = PlayBody.uris "spotify:track:xyz" ∧
    (∀ pre post : String, playBody (some (pre ++ "playlist" ++ post)) =
      PlayBody.contextUri (pre ++ "playlist" ++ post)) ∧
    (∀ pre post : String, playBody (some (pre ++ "album" ++ post)) =
      PlayBody.contextUri (pre ++ "album" ++ post)) ∧
    (∀ uri : String, includesJS uri "playlist" = false → includesJS uri "album" = false →
      playBody (some uri) = PlayBody.uris uri) := by
  refine ⟨by decide, by decide, ?_, ?_, ?_⟩
  · intro pre post
    simp [playBody, includesJS_append]
  · intro pre post
    simp [playBody, includesJS_append]
  · intro uri h1 h2
    simp [playBody, h1, h2]

/-- Witness for the amended claim C8 at concrete inputs. -/
theorem playBody_substring_classification_witness :
    playBody (some ("spotify:" ++ "playlist" ++ ":abc")) =
      PlayBody.contextUri ("spotify:" ++ "playlist" ++ ":abc") ∧
    playBody (some "spotify:track:zz9") = PlayBody.uris "spotify:track:zz9" :=
  ⟨playBody_substring_classification.2.2.1 "spotify:" ":abc",
   playBody_substring_classification.2.2.2.2 "spotify:track:zz9" (by decide) (by decide)⟩

/-! ## Claim C9 -/

/-- Counterexample to claim C9 as stated: remote-mode play schedules no
proactive re-poll (and neither do seek and setVolume). -/
theorem not_all_remote_actions_repoll : ¬ claimC9Stmt := by
  intro h
  have h2 := (h none 0 0).1
  exact absurd h2 (by decide)

/-- Claim C9 (amended): only the actions routed through remoteControl, that
is pause, resume, nextTrack and previousTrack, schedule the 200ms proactive
re-poll after their HTTP call; play, seek and setVolume issue their request
without scheduling any re-poll. -/
theorem repoll_only_for_remoteControl_actions (uri : Option String) (pos vol : Nat) :
    Eff.repollAfter 200 ∈ pauseRemoteEff true ∧
    Eff.repollAfter 200 ∈ resumeRemoteEff true ∧
    Eff.repollAfter 200 ∈ nextRemoteEff true ∧
    Eff.repollAfter 200 ∈ previousRemoteEff true ∧
    Eff.repollAfter 200 ∉ playRemoteEff true uri ∧
    Eff.repollAfter 200 ∉ seekRemoteEff true pos ∧
    Eff.repollAfter 200 ∉ setVolumeRemoteEff true vol := by
  refine ⟨?_, ?_, ?_, ?_, ?_, ?_, ?_⟩ <;>
    simp [pauseRemoteEff, resumeRemoteEff, nextRemoteEff, previousRemoteEff,
      playRemoteEff, seekRemoteEff, setVolumeRemoteEff, remoteControl]

/-- Witness for the amended claim C9 at concrete inputs. -/
theorem repoll_only_for_remoteControl_actions_witness :
    Eff.repollAfter 200 ∈ pauseRemoteEff true ∧
    Eff.repollAfter 200 ∉ seekRemoteEff true 0 :=
  ⟨(repoll_only_for_remoteControl_actions none 0 0).1,
   (repoll_only_for_remoteControl_actions none 0 0).2.2.2.2.2.1⟩

/-! ## Claim C10 -/

/-- Claim C10: when storage holds an access token and an expiry string that
parseInt cannot parse (NaN), getAccessToken returns the stored token, because
the comparison now >= NaN is false for every now. -/
theorem getAccessToken_nan_expiry_returns_token (now : Int) (s : Storage)
    (t x : String) (h1 : s.accessToken = some t) (h2 : t ≠ "")
    (h3 : s.tokenExpiry = some x) (h4 : x ≠ "") (h5 : parseIntJS x = none) :
    getAccessToken now s = some t := by
  unfold getAccessToken
  rw [h1, h3]
  simp [h2, h4, h5]

/-- Witness for claim C10 at a concrete corrupted expiry. -/
theorem getAccessToken_nan_expiry_returns_token_witness :
    getAccessToken 0
      { accessToken := some "tok", refreshToken := none, tokenExpiry := some "oops"
        codeVerifier := none } = some "tok" :=
  getAccessToken_nan_expiry_returns_token 0
    { accessToken := some "tok", refreshToken := none, tokenExpiry := some "oops"
      codeVerifier := none } "tok" "oops" rfl (by decide) rfl (by decide) (by decide)

end StudyApp
